import Mathlib

/-!
Shallow embedding of the SAC agent in `src/model.py` and `src/agent.py`.

Vectors (states, actions, per-dimension bounds, network parameters) are
modelled as `List ℝ`; tensors of shape `(batch, dim)` are treated one row
at a time. The reparameterised draw `normal.rsample()` is modelled by an
explicit noise vector `noise`, with the raw sample `x_t = mean + std * noise`.
-/

noncomputable section

namespace SAC

/-- `LOG_SIG_MAX = 2` from src/model.py. -/
def LOG_SIG_MAX : ℝ := 2

/-- `LOG_SIG_MIN = -20` from src/model.py. -/
def LOG_SIG_MIN : ℝ := -20

/-- `epsilon = 1e-6` from src/model.py. -/
def epsilon : ℝ := 1e-6

/-- Dot product of a weight row with an input vector. -/
def dot (w x : List ℝ) : ℝ := ((w.zip x).map fun p => p.1 * p.2).sum

/-- One fully connected layer (`nn.Linear`): a weight matrix and a bias vector. -/
structure Linear where
  weight : List (List ℝ)
  bias : List ℝ

/-- Applying a linear layer to an input vector. -/
def Linear.apply (l : Linear) (x : List ℝ) : List ℝ :=
  (l.weight.zip l.bias).map fun p => dot p.1 x + p.2

/-- `F.relu`. -/
def relu (x : ℝ) : ℝ := max x 0

/-- `torch.clamp(x, min=lo, max=hi)`. -/
def clamp (x lo hi : ℝ) : ℝ := min (max x lo) hi

/-- An action space with per-dimension bounds, as consumed by `Actor.__init__`. -/
structure ActionSpace where
  low : List ℝ
  high : List ℝ

/-- The Actor's parameters: two hidden layers, the mean head, the log-std head,
and the rescaling pair, as set up in `Actor.__init__` (src/model.py lines 17-41). -/
structure Actor where
  linear1 : Linear
  linear2 : Linear
  mean_linear : Linear
  log_std_linear : Linear
  action_scale : List ℝ
  action_bias : List ℝ

/-- `Actor.__init__` action scale (src/model.py lines 32-38): `1` per dimension
when `action_space is None`, else `(high - low) / 2` per dimension. -/
def initActionScale (space : Option ActionSpace) (n : ℕ) : List ℝ :=
  match space with
  | none => List.replicate n 1
  | some sp => (sp.high.zip sp.low).map fun p => (p.1 - p.2) / 2

/-- `Actor.__init__` action bias (src/model.py lines 32-41): `0` per dimension
when `action_space is None`, else — as the code is written — `(high - low) / 2`
per dimension, the same expression as the scale. -/
def initActionBias (space : Option ActionSpace) (n : ℕ) : List ℝ :=
  match space with
  | none => List.replicate n 0
  | some sp => (sp.high.zip sp.low).map fun p => (p.1 - p.2) / 2

/-- `Actor.forward` (src/model.py lines 43-49): two relu layers, then the mean
head and the clamped log-std head. -/
def Actor.forward (a : Actor) (state : List ℝ) : List ℝ × List ℝ :=
  let x1 := (a.linear1.apply state).map relu
  let x2 := (a.linear2.apply x1).map relu
  let mean := a.mean_linear.apply x2
  let log_std := (a.log_std_linear.apply x2).map fun v => clamp v LOG_SIG_MIN LOG_SIG_MAX
  (mean, log_std)

/-- `std = log_std.exp()` (src/model.py line 53). -/
def Actor.std (a : Actor) (state : List ℝ) : List ℝ :=
  ((a.forward state).2).map Real.exp

/-- `x_t = normal.rsample()` (src/model.py line 55): the reparameterised raw
sample `mean + std * noise` for a standard-normal noise vector. -/
def Actor.xt (a : Actor) (state noise : List ℝ) : List ℝ :=
  List.zipWith (fun p n => p.1 + p.2 * n) ((a.forward state).1.zip (a.std state)) noise

/-- The log-density of `Normal(μ, σ)` at `x`, as `torch.distributions.Normal.log_prob`
computes it: `-(x-μ)² / (2σ²) - log σ - log √(2π)`. -/
def normalLogPdf (μ σ x : ℝ) : ℝ :=
  -((x - μ) ^ 2) / (2 * σ ^ 2) - Real.log σ - Real.log (Real.sqrt (2 * Real.pi))

/-- The log-probability computed in `Actor.sample` (src/model.py lines 58-60):
per dimension, `normal.log_prob(x_t)` minus
`log(action_scale * (1 - tanh(x_t)²) + epsilon)`, summed across dimensions. -/
def Actor.log_prob (a : Actor) (state noise : List ℝ) : ℝ :=
  (List.zipWith
    (fun p sc => normalLogPdf p.1.1 p.1.2 p.2 -
      Real.log (sc * (1 - Real.tanh p.2 ^ 2) + epsilon))
    (((a.forward state).1.zip (a.std state)).zip (a.xt state noise))
    a.action_scale).sum

/-- `Actor.sample` (src/model.py lines 51-62): returns
`(action, log_prob, mean_action)` where `action = tanh(x_t) * scale + bias`
and `mean_action = tanh(mean) * scale + bias`. -/
def Actor.sample (a : Actor) (state noise : List ℝ) : List ℝ × ℝ × List ℝ :=
  let mean := (a.forward state).1
  let y_t := (a.xt state noise).map Real.tanh
  let action := List.zipWith (fun y p => y * p.1 + p.2) y_t (a.action_scale.zip a.action_bias)
  let mean_action := List.zipWith (fun m p => Real.tanh m * p.1 + p.2) mean
    (a.action_scale.zip a.action_bias)
  (action, a.log_prob state noise, mean_action)

/-- `Agent.select_action` body (src/agent.py lines 29-35): with `evaluate is False`
the stochastic action component of `Actor.sample`, otherwise the deterministic
mean-action component. The returned value is a plain vector of reals. -/
def selectAction (a : Actor) (state : List ℝ) (evaluate : Bool) (noise : List ℝ) : List ℝ :=
  if evaluate = false then (a.sample state noise).1 else (a.sample state noise).2.2

/-- A stored transition (`memory.store_transition` in src/agent.py line 115). -/
structure Transition where
  state : List ℝ
  action : List ℝ
  reward : ℝ
  next_state : List ℝ
  mask : ℝ

/-- The Agent's mutable state: the Actor plus both critics. The `Critic` class is
imported by src/agent.py from model.py but its definition is not among the
source files, so (modelled from the spec, section 4.2) each critic is abstracted
to its vector of parameters — `select_action` never reads or writes them. -/
structure Agent where
  actor : Actor
  critic : List ℝ
  critic_target : List ℝ

/-- `Agent.select_action` as a step on the agent state and replay buffer
(src/agent.py lines 29-35): the method assigns no attribute of `self` and never
touches the buffer, so the embedding returns both unchanged alongside the action. -/
def Agent.select_action (ag : Agent) (memory : List Transition) (state : List ℝ)
    (evaluate : Bool) (noise : List ℝ) : List ℝ × Agent × List Transition :=
  (selectAction ag.actor state evaluate noise, ag, memory)

/-- `min_qf_next_target` (src/agent.py line 49): `min(q1, q2) - α * log_pi`. -/
def min_qf_next_target (q1 q2 α log_pi : ℝ) : ℝ := min q1 q2 - α * log_pi

/-- `next_q_value` (src/agent.py line 50): `reward + mask * γ * soft_value`. -/
def next_q_value (reward m γ soft_value : ℝ) : ℝ := reward + m * γ * soft_value

/-- The mask stored by `Agent.train` (src/agent.py line 113):
`1 if episode_steps == max_episode_steps else float(not done)`. -/
def mask (episode_steps max_episode_steps : ℕ) (done : Bool) : ℝ :=
  if episode_steps = max_episode_steps then 1 else (if done then 0 else 1)

/-- The target-network branch of `Agent.update_parameters` (src/agent.py
lines 76-78): when `updates % target_update_interval == 0` the body is `pass`,
so the target parameters are returned unchanged either way; the critic
parameters are ignored. -/
def updateTargetCode (updates target_update_interval : ℕ)
    (_critic_params target_params : List ℝ) : List ℝ :=
  if updates % target_update_interval = 0 then target_params else target_params

/-- Modelled from the spec (section 4.4 step 4; the routine is left as a stub in
src/agent.py lines 76-78): the soft update
`target_param ← τ·param + (1−τ)·target_param` for every critic parameter. -/
def softUpdate (τ : ℝ) (params target_params : List ℝ) : List ℝ :=
  List.zipWith (fun p t => τ * p + (1 - τ) * t) params target_params

/-- The analytic change-of-variables log-probability as the spec states it
(section 4.1): the log-density of the pre-squash normal at the raw sample,
corrected by subtracting `log(scale * (1 - tanh(x_t)²) + ε)`, summed across
action dimensions. -/
def analyticLogProb (a : Actor) (state noise : List ℝ) : ℝ :=
  (List.zipWith
    (fun p sc => normalLogPdf p.1.1 p.1.2 p.2 -
      Real.log (sc * (1 - Real.tanh p.2 ^ 2) + epsilon))
    (((a.forward state).1.zip (a.std state)).zip (a.xt state noise))
    a.action_scale).sum

/-- A one-input, one-action network in which every weight and bias is zero, so
`forward` yields mean `0` and (clamped) log-std `0`. -/
def zeroLinear : Linear := ⟨[[0]], [0]⟩

/-- A one-dimensional action space with bounds `low = 2`, `high = 4`. -/
def toySpace : ActionSpace := ⟨[2], [4]⟩

/-- A concrete Actor built over `toySpace`, with the scale and bias exactly as
`Actor.__init__` computes them. -/
def toyActor : Actor :=
  { linear1 := zeroLinear
    linear2 := zeroLinear
    mean_linear := zeroLinear
    log_std_linear := zeroLinear
    action_scale := initActionScale (some toySpace) 1
    action_bias := initActionBias (some toySpace) 1 }

/-- A concrete Actor built with `action_space = None`, with the scale and bias
exactly as `Actor.__init__` computes them in that branch. -/
def toyActorNone : Actor :=
  { linear1 := zeroLinear
    linear2 := zeroLinear
    mean_linear := zeroLinear
    log_std_linear := zeroLinear
    action_scale := initActionScale none 1
    action_bias := initActionBias none 1 }

/-- A concrete Agent wrapping `toyActorNone`, for closed instantiations. -/
def toyAgent : Agent := ⟨toyActorNone, [], []⟩

/-- The hyperbolic tangent is strictly below `1` on the reals. -/
theorem tanh_lt_one (x : ℝ) : Real.tanh x < 1 := by
  rw [Real.tanh_eq_sinh_div_cosh]
  exact (div_lt_one (Real.cosh_pos x)).mpr (Real.sinh_lt_cosh x)

/-- The hyperbolic tangent is strictly above `-1` on the reals. -/
theorem neg_one_lt_tanh (x : ℝ) : -1 < Real.tanh x := by
  have h := Real.sinh_lt_cosh (-x)
  rw [Real.sinh_neg, Real.cosh_neg] at h
  rw [Real.tanh_eq_sinh_div_cosh, lt_div_iff₀ (Real.cosh_pos x)]
  linarith

/-- Zipping two equally long constant lists yields a constant list of pairs. -/
theorem zip_replicate_pair (n : ℕ) (a b : ℝ) :
    (List.replicate n a).zip (List.replicate n b) = List.replicate n (a, b) := by
  induction n with
  | zero => rfl
  | succ k ih => simp [List.replicate_succ, ih]

/-- Rescaling with scale `1` and bias `0` is the identity on each entry. -/
theorem zipWith_unit_affine (l : List ℝ) : ∀ n : ℕ, l.length ≤ n →
    List.zipWith (fun y p => y * p.1 + p.2) l (List.replicate n ((1 : ℝ), (0 : ℝ))) = l := by
  induction l with
  | nil => intro n _; simp
  | cons y ys ih =>
    intro n hn
    cases n with
    | zero => simp at hn
    | succ k =>
      have hk : ys.length ≤ k := by simpa using hn
      simp [List.replicate_succ, ih k hk]

/-- Claim C1 (failing on the code): `Actor.__init__` sets
`action_bias = (high - low) / 2` instead of the midpoint `(high + low) / 2`, so
with bounds `low = 2`, `high = 4` the actor built by the code has scale `1` and
bias `1`, and the sampled action at mean `0`, std `1`, noise `0` is `tanh 0 * 1
+ 1 = 1`, strictly below the lower bound `2`: the sampled action does not lie
within `[low, high]` componentwise. -/
theorem actionBias_out_of_bounds :
    (toyActor.sample [0] [0]).1 = [(1 : ℝ)] ∧
    ¬ (∀ v ∈ (toyActor.sample [0] [0]).1, (2 : ℝ) ≤ v ∧ v ≤ 4) := by
  have h1 : (toyActor.sample [0] [0]).1 = [(1 : ℝ)] := by
    norm_num [toyActor, zeroLinear, toySpace, Actor.sample, Actor.xt, Actor.std,
      Actor.forward, Linear.apply, dot, relu, clamp, initActionScale, initActionBias,
      LOG_SIG_MIN, LOG_SIG_MAX, max_def, min_def, Real.exp_zero, Real.tanh_zero]
  refine ⟨h1, fun hall => ?_⟩
  have h2 := hall 1 (by rw [h1]; exact List.mem_singleton.mpr rfl)
  exact absurd h2.1 (by norm_num)

/-- Claim C3 (failing on the code): the target-synchronization branch of
`Agent.update_parameters` is a stub (`pass`), so at `updates = 0` with interval
`1`, critic parameter `1` and target parameter `0`, the target stays `0`,
whereas the soft-update rule with `τ = 1/2` would give `1/2`; the soft-update
rule itself (modelled from the spec) does satisfy the stated `τ = 1` and
`τ = 0` consequences. -/
theorem targetUpdate_stub :
    updateTargetCode 0 1 [(1 : ℝ)] [(0 : ℝ)] = [(0 : ℝ)] ∧
    softUpdate (1 / 2) [(1 : ℝ)] [(0 : ℝ)] = [(1 / 2 : ℝ)] ∧
    updateTargetCode 0 1 [(1 : ℝ)] [(0 : ℝ)] ≠ softUpdate (1 / 2) [(1 : ℝ)] [(0 : ℝ)] ∧
    softUpdate 1 [(5 : ℝ)] [(7 : ℝ)] = [(5 : ℝ)] ∧
    softUpdate 0 [(5 : ℝ)] [(7 : ℝ)] = [(7 : ℝ)] := by
  refine ⟨rfl, by norm_num [softUpdate], ?_, by norm_num [softUpdate],
    by norm_num [softUpdate]⟩
  intro h
  rw [show updateTargetCode 0 1 [(1 : ℝ)] [(0 : ℝ)] = [(0 : ℝ)] from rfl] at h
  have h2 : softUpdate (1 / 2) [(1 : ℝ)] [(0 : ℝ)] = [(1 / 2 : ℝ)] := by
    norm_num [softUpdate]
  rw [h2, List.cons.injEq] at h
  exact absurd h.1 (by norm_num)

/-- Claim C4: the TD target computed in `Agent.update_parameters` equals
`reward + mask * γ * (min(Q1t, Q2t) - α * log_pi)`; with `mask = 0` it reduces
to exactly the reward, and with `mask = 1`, `reward = 0`, `γ = 1` it equals the
soft value estimate `min(Q1t, Q2t) - α * log_pi`. -/
theorem td_target_formula : ∀ reward m γ q1 q2 α log_pi : ℝ,
    next_q_value reward m γ (min_qf_next_target q1 q2 α log_pi) =
      reward + m * γ * (min q1 q2 - α * log_pi) ∧
    next_q_value reward 0 γ (min_qf_next_target q1 q2 α log_pi) = reward ∧
    next_q_value 0 1 1 (min_qf_next_target q1 q2 α log_pi) =
      min q1 q2 - α * log_pi := by
  intro reward m γ q1 q2 α log_pi
  refine ⟨rfl, by simp [next_q_value], by simp [next_q_value, min_qf_next_target]⟩

/-- Instantiation of the TD-target theorem at concrete reals. -/
theorem td_target_formula_witness :
    next_q_value 1 2 3 (min_qf_next_target 4 5 6 7) = 1 + 2 * 3 * (min 4 5 - 6 * 7) ∧
    next_q_value 1 0 3 (min_qf_next_target 4 5 6 7) = 1 ∧
    next_q_value 0 1 1 (min_qf_next_target 4 5 6 7) = min 4 5 - 6 * 7 :=
  td_target_formula 1 2 3 4 5 6 7

/-- Claim C5: the log-probability returned by `Actor.sample` is exactly the sum
across action dimensions of the pre-squash normal log-density at the raw sample
minus `log(action_scale * (1 - tanh(x_t)²) + ε)` with `ε = 1e-6`; and whenever
the per-dimension scale is nonnegative, the argument of every correcting
logarithm is strictly positive (the `ε` keeps the value away from `log 0`). -/
theorem log_prob_change_of_variables (a : Actor) (state noise : List ℝ)
    (h : ∀ c ∈ a.action_scale, 0 ≤ c) :
    (a.sample state noise).2.1 = analyticLogProb a state noise ∧
    ∀ sc ∈ a.action_scale, ∀ x : ℝ, 0 < sc * (1 - Real.tanh x ^ 2) + epsilon := by
  refine ⟨rfl, fun sc hsc x => ?_⟩
  have h1 : Real.tanh x < 1 := tanh_lt_one x
  have h2 : -1 < Real.tanh x := neg_one_lt_tanh x
  have h3 : Real.tanh x ^ 2 ≤ 1 := by nlinarith
  have h4 : 0 ≤ sc * (1 - Real.tanh x ^ 2) := mul_nonneg (h sc hsc) (by linarith)
  have h5 : (0 : ℝ) < epsilon := by norm_num [epsilon]
  linarith

/-- Instantiation of the log-probability theorem at the concrete `toyActor`. -/
theorem log_prob_change_of_variables_witness :
    (∀ c ∈ toyActor.action_scale, (0 : ℝ) ≤ c) ∧
    ((toyActor.sample [0] [0]).2.1 = analyticLogProb toyActor [0] [0] ∧
     ∀ sc ∈ toyActor.action_scale, ∀ x : ℝ,
       0 < sc * (1 - Real.tanh x ^ 2) + epsilon) := by
  have hc : ∀ c ∈ toyActor.action_scale, (0 : ℝ) ≤ c := by
    intro c hcm
    have hc1 : c = (4 - 2) / 2 := by
      simpa [toyActor, initActionScale, toySpace] using hcm
    rw [hc1]
    norm_num
  exact ⟨hc, log_prob_change_of_variables toyActor [0] [0] hc⟩

/-- Claim C6: the mask stored by `Agent.train` is always `0` or `1`; it is `1`
when `episode_steps` equals `max_episode_steps` (truncation treated as
non-terminal), `0` when the environment signals done before the step cap, and
`1` otherwise. -/
theorem mask_rule : ∀ (steps cap : ℕ) (done : Bool),
    (mask steps cap done = 0 ∨ mask steps cap done = 1) ∧
    (steps = cap → mask steps cap done = 1) ∧
    (steps < cap → done = true → mask steps cap done = 0) ∧
    (steps ≠ cap → done = false → mask steps cap done = 1) := by
  intro steps cap done
  refine ⟨?_, ?_, ?_, ?_⟩
  · unfold mask
    split_ifs <;> simp
  · intro h
    simp [mask, h]
  · intro h hd
    simp [mask, Nat.ne_of_lt h, hd]
  · intro h hd
    simp [mask, h, hd]

/-- Instantiation of the mask rule at concrete values. -/
theorem mask_rule_witness :
    (mask 3 5 true = 0 ∨ mask 3 5 true = 1) ∧
    ((3 : ℕ) = 5 → mask 3 5 true = 1) ∧
    (3 < 5 → true = true → mask 3 5 true = 0) ∧
    ((3 : ℕ) ≠ 5 → true = false → mask 3 5 true = 1) :=
  mask_rule 3 5 true

/-- Claim C8: `Agent.select_action` with `evaluate = True` returns the
deterministic mean action `tanh(mean) * scale + bias` — the same vector for any
two noise draws — while with `evaluate = False` it returns the stochastic
reparameterised action component of `Actor.sample`. -/
theorem select_action_eval : ∀ (a : Actor) (state n₁ n₂ : List ℝ),
    selectAction a state true n₁ = selectAction a state true n₂ ∧
    selectAction a state true n₁ =
      List.zipWith (fun m p => Real.tanh m * p.1 + p.2) (a.forward state).1
        (a.action_scale.zip a.action_bias) ∧
    selectAction a state false n₁ = (a.sample state n₁).1 := by
  intro a state n₁ n₂
  exact ⟨rfl, rfl, rfl⟩

/-- Instantiation of the evaluation-mode theorem at the concrete `toyActorNone`
with two different noise vectors. -/
theorem select_action_eval_witness :
    selectAction toyActorNone [0] true [0] = selectAction toyActorNone [0] true [1] ∧
    selectAction toyActorNone [0] true [0] =
      List.zipWith (fun m p => Real.tanh m * p.1 + p.2) (toyActorNone.forward [0]).1
        (toyActorNone.action_scale.zip toyActorNone.action_bias) ∧
    selectAction toyActorNone [0] false [0] = (toyActorNone.sample [0] [0]).1 :=
  select_action_eval toyActorNone [0] [0] [1]

/-- Claim C9: with `action_space = None`, `Actor.__init__` sets the scale to `1`
and the bias to `0` in every dimension, so each action `Actor.sample` returns is
exactly `tanh` of the raw Gaussian sample and lies in `[-1, 1]` componentwise. -/
theorem none_action_space_tanh (a : Actor) (n : ℕ) (state noise : List ℝ)
    (hs : a.action_scale = List.replicate n 1)
    (hb : a.action_bias = List.replicate n 0)
    (hn : (a.xt state noise).length ≤ n) :
    initActionScale none n = List.replicate n 1 ∧
    initActionBias none n = List.replicate n 0 ∧
    (a.sample state noise).1 = (a.xt state noise).map Real.tanh ∧
    ∀ v ∈ (a.sample state noise).1, -1 ≤ v ∧ v ≤ 1 := by
  have haction : (a.sample state noise).1 = (a.xt state noise).map Real.tanh := by
    show List.zipWith (fun y p => y * p.1 + p.2) ((a.xt state noise).map Real.tanh)
        (a.action_scale.zip a.action_bias) = (a.xt state noise).map Real.tanh
    rw [hs, hb, zip_replicate_pair]
    exact zipWith_unit_affine _ n (by simpa using hn)
  refine ⟨rfl, rfl, haction, ?_⟩
  intro v hv
  rw [haction] at hv
  obtain ⟨x, _, rfl⟩ := List.mem_map.mp hv
  exact ⟨(neg_one_lt_tanh x).le, (tanh_lt_one x).le⟩

/-- Instantiation of the `action_space = None` theorem at the concrete
`toyActorNone`, whose raw sample list at state `[0]`, noise `[0]` has length 1. -/
theorem none_action_space_tanh_witness :
    toyActorNone.action_scale = List.replicate 1 (1 : ℝ) ∧
    toyActorNone.action_bias = List.replicate 1 (0 : ℝ) ∧
    (toyActorNone.xt [0] [0]).length ≤ 1 ∧
    (initActionScale none 1 = List.replicate 1 (1 : ℝ) ∧
     initActionBias none 1 = List.replicate 1 (0 : ℝ) ∧
     (toyActorNone.sample [0] [0]).1 = (toyActorNone.xt [0] [0]).map Real.tanh ∧
     ∀ v ∈ (toyActorNone.sample [0] [0]).1, -1 ≤ v ∧ v ≤ 1) := by
  have hlen : (toyActorNone.xt [0] [0]).length ≤ 1 := by
    simp [Actor.xt, List.length_zipWith]
  exact ⟨rfl, rfl, hlen, none_action_space_tanh toyActorNone 1 [0] [0] rfl rfl hlen⟩

/-- Claim C10: `Agent.select_action` mutates no agent state — the Actor, the
Critic and Target Critic parameters, and the replay buffer are the same after
the call as before it, for every state, evaluate flag and noise draw. -/
theorem select_action_frame : ∀ (ag : Agent) (memory : List Transition)
    (state : List ℝ) (evaluate : Bool) (noise : List ℝ),
    (ag.select_action memory state evaluate noise).2.1.actor = ag.actor ∧
    (ag.select_action memory state evaluate noise).2.1.critic = ag.critic ∧
    (ag.select_action memory state evaluate noise).2.1.critic_target = ag.critic_target ∧
    (ag.select_action memory state evaluate noise).2.2 = memory := by
  intro ag memory state evaluate noise
  exact ⟨rfl, rfl, rfl, rfl⟩

/-- Instantiation of the frame theorem at the concrete `toyAgent`. -/
theorem select_action_frame_witness :
    (toyAgent.select_action [] [0] false [0]).2.1.actor = toyAgent.actor ∧
    (toyAgent.select_action [] [0] false [0]).2.1.critic = toyAgent.critic ∧
    (toyAgent.select_action [] [0] false [0]).2.1.critic_target = toyAgent.critic_target ∧
    (toyAgent.select_action [] [0] false [0]).2.2 = [] :=
  select_action_frame toyAgent [] [0] false [0]

end SAC
